import Mathlib

/-!
Shallow embedding of the dynamic-scaler service (src/dynamic-scaler):
configuration records (config.py), the scaling decision engine and control
loop (scaler.py), the queue-depth probe (redis_client.py) and the actuator
(docker_manager.py).  Python integers are `Int`; timestamps (epoch seconds)
are `Int` — every property of interest depends only on the ordering of
times, not on fractional seconds.  Fallible calls return `Except`;
the environment seen by one loop iteration (probe results, actuation
outcome) is passed in explicitly as a `CycleInput`.
-/

namespace DynScaler

/-- Scaling bounds and thresholds (config.py, `ScalingConfig`). -/
structure ScalingConfig where
  minReplicas : Int
  maxReplicas : Int
  scaleUpThreshold : Int
  scaleDownThreshold : Int
deriving Repr, DecidableEq

/-- Loop timing (config.py, `TimingConfig`), in whole seconds. -/
structure TimingConfig where
  pollingInterval : Int
  cooldownPeriod : Int
deriving Repr, DecidableEq

/-- Queue identity (config.py, `QueueConfig`); `namePfx` embeds the source
field `name_prefix`. -/
structure QueueConfig where
  namePfx : String
  name : String
deriving Repr, DecidableEq

/-- config.py `QueueConfig.get_queue_key`. -/
def QueueConfig.getQueueKey (qc : QueueConfig) (state : String) : String :=
  qc.namePfx ++ ":" ++ qc.name ++ ":" ++ state

/-- Reason string built in the scale-up branch of
`DynamicScaler._make_scaling_decision` (scaler.py). -/
def upReason (cfg : ScalingConfig) (queueLength : Int) : String :=
  "Queue length " ++ toString queueLength ++ " > threshold "
    ++ toString cfg.scaleUpThreshold

/-- Reason string built in the scale-down branch of
`DynamicScaler._make_scaling_decision` (scaler.py). -/
def downReason (cfg : ScalingConfig) (queueLength : Int) : String :=
  "Queue length " ++ toString queueLength ++ " <= threshold "
    ++ toString cfg.scaleDownThreshold

/-- scaler.py `DynamicScaler._make_scaling_decision`: optional
(target replicas, reason); scale-up branch tested first, scale-down in the
`elif`, `None` otherwise. -/
def makeScalingDecision (cfg : ScalingConfig) (queueLength currentReplicas : Int) :
    Option (Int × String) :=
  if queueLength > cfg.scaleUpThreshold ∧ currentReplicas < cfg.maxReplicas then
    some (min (currentReplicas + 1) cfg.maxReplicas, upReason cfg queueLength)
  else if queueLength ≤ cfg.scaleDownThreshold ∧ currentReplicas > cfg.minReplicas then
    some (max (currentReplicas - 1) cfg.minReplicas, downReason cfg queueLength)
  else
    none

/-- A value stored at a Redis key: a list of job entries, or a value of some
non-list type. -/
inductive RVal where
  | list (items : List String)
  | str (s : String)
deriving Repr, DecidableEq

/-- A Redis store: association list from keys to values (first match wins). -/
abbrev Store := List (String × RVal)

/-- Key lookup in a store. -/
def storeLookup : Store → String → Option RVal
  | [], _ => none
  | (k, v) :: rest, key => if k = key then some v else storeLookup rest key

/-- Error classes raised by the redis client on a read. -/
inductive RedisErr where
  | wrongType
  | otherErr
deriving Repr, DecidableEq

/-- Redis `LLEN` semantics as seen by redis-py: a missing key is an empty
list and yields 0; a list yields its length; a key of another type raises
`ResponseError` (WRONGTYPE). -/
def llen (store : Store) (key : String) : Except RedisErr Int :=
  match storeLookup store key with
  | none => Except.ok 0
  | some (RVal.list items) => Except.ok (items.length : Int)
  | some (RVal.str _) => Except.error RedisErr.wrongType

/-- The candidate-key loop inside `RedisClient.get_queue_length`
(redis_client.py): the first candidate whose `llen` result is non-negative
is returned; `ResponseError` and any other error skip to the next
candidate; 0 when the candidates are exhausted. -/
def tryKeys (store : Store) : List String → Int
  | [] => 0
  | k :: rest =>
    match llen store k with
    | Except.ok length => if length ≥ 0 then length else tryKeys store rest
    | Except.error _ => tryKeys store rest

/-- redis_client.py `RedisClient.get_queue_length`; `client = none` embeds
`self._client is None` (returns 0).  The three candidate keys, in source
order: `prefix:name:wait`, `prefix:name:waiting`, `prefix:name`. -/
def getQueueLength (client : Option Store) (qc : QueueConfig) : Int :=
  match client with
  | none => 0
  | some store =>
    tryKeys store
      [qc.getQueueKey "wait", qc.getQueueKey "waiting", qc.namePfx ++ ":" ++ qc.name]

/-- Exception classes a redis `ping()` can raise. -/
inductive ExcKind where
  | connectionError
  | timeoutError
  | otherError
deriving Repr, DecidableEq

/-- Liveness-probe state of the redis client: `none` = no client object;
`some r` = the outcome of `ping()` on the held client. -/
abbrev PingState := Option (Except ExcKind Unit)

/-- redis_client.py `RedisClient.is_connected`: returns false when no client
is held, pings otherwise, and catches only `redis.ConnectionError`; any
other exception propagates to the caller. -/
def isConnected (st : PingState) : Except ExcKind Bool :=
  match st with
  | none => Except.ok false
  | some (Except.ok _) => Except.ok true
  | some (Except.error e) =>
    if e = ExcKind.connectionError then Except.ok false else Except.error e

/-- Orchestrator identity (config.py, `DockerConfig`). -/
structure DockerConfig where
  composeFile : String
  projectName : String
  serviceName : String
deriving Repr, DecidableEq

/-- Outcome of `subprocess.run(..., check=True, timeout=120)` as classified
by the `except` arms of `DockerManager.scale_service`. -/
inductive RunOutcome where
  | completed (stdout stderr : String)
  | calledProcessError (returncode : Int) (stdout stderr : String)
  | timeoutExpired
  | fileNotFound
  | otherError
deriving Repr, DecidableEq

/-- docker_manager.py `DockerManager.scale_service`.  `run` is the
subprocess oracle; the result pairs the returned boolean with a flag
recording whether the subprocess was invoked at all. -/
def scaleService (cfg : DockerConfig) (targetReplicas : Int)
    (run : List String → RunOutcome) : Bool × Bool :=
  if targetReplicas < 0 then
    (false, false)
  else
    let command := ["docker", "compose", "-f", cfg.composeFile,
      "--project-name", cfg.projectName, "--project-directory", "/app",
      "up", "-d", "--no-deps", "--scale",
      cfg.serviceName ++ "=" ++ toString targetReplicas, cfg.serviceName]
    match run command with
    | RunOutcome.completed _ _ => (true, true)
    | RunOutcome.calledProcessError _ _ _ => (false, true)
    | RunOutcome.timeoutExpired => (false, true)
    | RunOutcome.fileNotFound => (false, true)
    | RunOutcome.otherError => (false, true)

/-- Mutable state of the scaling loop (scaler.py): the `running` flag and
`last_scale_time` instance fields, plus the `consecutive_errors` local of
`_scaling_loop`. -/
structure ScalerState where
  running : Bool
  lastScaleTime : Int
  consecutiveErrors : Nat
deriving Repr, DecidableEq

/-- Outcome of `self.redis_client.is_connected()` as seen by the loop:
either a returned boolean, or an exception that escapes to the outer
`except Exception` arm (is_connected catches only `ConnectionError`). -/
inductive ConnProbe where
  | ok (b : Bool)
  | throws
deriving Repr, DecidableEq

/-- The environment one loop iteration observes: the sampled clock, the
liveness probe, the result of `connect()` if a reconnect is attempted, the
two measurements, and whether `scale_service` would succeed if invoked. -/
structure CycleInput where
  currentTime : Int
  connProbe : ConnProbe
  reconnectOk : Bool
  queueLength : Int
  currentReplicas : Int
  scaleSucceeds : Bool
deriving Repr, DecidableEq

/-- Observable events of one loop iteration: whether the queue length and
replica count were measured, and whether `scale_service` was invoked. -/
structure CycleEvents where
  measured : Bool
  scaleCalled : Bool
deriving Repr, DecidableEq

/-- scaler.py `DynamicScaler._handle_consecutive_errors`: at or above the
budget it clears `running` and returns without sleeping; below it, it
sleeps `min(consecutive_errors * 2, 60)` seconds.  Result: the new
`running` flag and the sleep performed. -/
def handleConsecutiveErrors (consecutiveErrors maxErrors : Nat) (running : Bool) :
    Bool × Option Nat :=
  if consecutiveErrors ≥ maxErrors then (false, none)
  else (running, some (min (consecutiveErrors * 2) 60))

/-- The `max_consecutive_errors` local of `_scaling_loop`. -/
def maxConsecutiveErrors : Nat := 5

/-- One iteration of the body of `DynamicScaler._scaling_loop` (scaler.py),
entered with `running = true`.  In source order: the cooldown check
(`continue` before any measurement, so `consecutive_errors` is not reset);
the connectivity check with reconnect attempt (failure increments the error
counter and calls the handler); measurement, decision and — if a decision
exists — actuation, with `last_scale_time` updated only on actuation
success; finally `consecutive_errors = 0` at the end of a completed body. -/
def scalingCycle (scfg : ScalingConfig) (tcfg : TimingConfig) (s : ScalerState)
    (i : CycleInput) : ScalerState × CycleEvents :=
  if i.currentTime - s.lastScaleTime < tcfg.cooldownPeriod then
    (s, ⟨false, false⟩)
  else
    match i.connProbe with
    | ConnProbe.throws =>
      let n := s.consecutiveErrors + 1
      let running' := (handleConsecutiveErrors n maxConsecutiveErrors s.running).1
      ({ s with running := running', consecutiveErrors := n }, ⟨false, false⟩)
    | ConnProbe.ok conn =>
      if conn = false ∧ i.reconnectOk = false then
        let n := s.consecutiveErrors + 1
        let running' := (handleConsecutiveErrors n maxConsecutiveErrors s.running).1
        ({ s with running := running', consecutiveErrors := n }, ⟨false, false⟩)
      else
        match makeScalingDecision scfg i.queueLength i.currentReplicas with
        | some _ =>
          let s' := if i.scaleSucceeds then { s with lastScaleTime := i.currentTime } else s
          ({ s' with consecutiveErrors := 0 }, ⟨true, true⟩)
        | none => ({ s with consecutiveErrors := 0 }, ⟨true, false⟩)

/-- scaler.py `DynamicScaler._scaling_loop`: `while self.running`, run one
cycle per pending input.  Returns the final state and the number of cycle
bodies actually executed. -/
def scalingLoop (scfg : ScalingConfig) (tcfg : TimingConfig) :
    ScalerState → List CycleInput → ScalerState × Nat
  | s, [] => (s, 0)
  | s, i :: rest =>
    if s.running then
      let s' := (scalingCycle scfg tcfg s i).1
      let (sEnd, k) := scalingLoop scfg tcfg s' rest
      (sEnd, k + 1)
    else (s, 0)

/-- Decidable equality for `Except`, used to evaluate probe results on
concrete stores. -/
instance {ε α : Type} [DecidableEq ε] [DecidableEq α] : DecidableEq (Except ε α) := fun a b =>
  match a, b with
  | Except.ok x, Except.ok y =>
    if h : x = y then isTrue (by rw [h])
    else isFalse (fun hc => h (by cases hc; rfl))
  | Except.error x, Except.error y =>
    if h : x = y then isTrue (by rw [h])
    else isFalse (fun hc => h (by cases hc; rfl))
  | Except.ok _, Except.error _ => isFalse (fun hc => Except.noConfusion hc)
  | Except.error _, Except.ok _ => isFalse (fun hc => Except.noConfusion hc)

/-- A concrete scaling configuration: the defaults of config.py
(`min=1, max=5, up=5, down=0`). -/
def exCfg : ScalingConfig := ⟨1, 5, 5, 0⟩

/-- A concrete timing configuration: the defaults of config.py
(`polling=30s, cooldown=120s`). -/
def exTiming : TimingConfig := ⟨30, 120⟩

/-- Claim C3 (confirmed): for every configuration, non-negative queue
length and replica count, the decision function returns
`(min(cur+1, max), up-reason)` when `queueLength > scaleUpThreshold` and
`cur < maxReplicas` — this case evaluated first and taking precedence —
otherwise `(max(cur-1, min), down-reason)` when
`queueLength ≤ scaleDownThreshold` and `cur > minReplicas`, and otherwise
no decision. -/
theorem C3_decision_characterization (cfg : ScalingConfig) (q cur : Int) (hq : 0 ≤ q) :
    (q > cfg.scaleUpThreshold ∧ cur < cfg.maxReplicas →
      makeScalingDecision cfg q cur
        = some (min (cur + 1) cfg.maxReplicas, upReason cfg q))
    ∧ (¬(q > cfg.scaleUpThreshold ∧ cur < cfg.maxReplicas) →
      q ≤ cfg.scaleDownThreshold ∧ cur > cfg.minReplicas →
      makeScalingDecision cfg q cur
        = some (max (cur - 1) cfg.minReplicas, downReason cfg q))
    ∧ (¬(q > cfg.scaleUpThreshold ∧ cur < cfg.maxReplicas) →
      ¬(q ≤ cfg.scaleDownThreshold ∧ cur > cfg.minReplicas) →
      makeScalingDecision cfg q cur = none) := by
  refine ⟨fun h => ?_, fun hn h => ?_, fun hn hn2 => ?_⟩
  · unfold makeScalingDecision; rw [if_pos h]
  · unfold makeScalingDecision; rw [if_neg hn, if_pos h]
  · unfold makeScalingDecision; rw [if_neg hn, if_neg hn2]

/-- Witness for C3: with the default configuration, queue 6 and 2 replicas
yield a one-step scale-up to 3 with the up-reason. -/
theorem C3_witness :
    makeScalingDecision exCfg 6 2 = some (min (2 + 1) exCfg.maxReplicas, upReason exCfg 6) :=
  (C3_decision_characterization exCfg 6 2 (by decide)).1 (by decide)

/-- Claim C5 (confirmed): the error handler sleeps
`min(consecutiveErrors * 2, 60)` seconds below the budget, giving exactly
the sequence 2s, 4s, 6s, 8s for counts 1..4, and at the 5th consecutive
failure it clears `running` (stop) without sleeping. -/
theorem C5_backoff_sequence :
    ((List.range 4).map
        (fun k => (handleConsecutiveErrors (k + 1) maxConsecutiveErrors true).2)
      = [some 2, some 4, some 6, some 8])
    ∧ ((List.range 4).map
        (fun k => (handleConsecutiveErrors (k + 1) maxConsecutiveErrors true).2)
      = (List.range 4).map (fun k => some (min ((k + 1) * 2) 60)))
    ∧ (handleConsecutiveErrors 5 maxConsecutiveErrors true).1 = false
    ∧ (handleConsecutiveErrors 5 maxConsecutiveErrors true).2 = none := by decide

/-- Claim C8 (confirmed): a scale-up decision's target never exceeds
`maxReplicas`, and a scale-down decision's target is never below
`minReplicas`. -/
theorem C8_targets_within_bounds (cfg : ScalingConfig) (q cur t : Int) (r : String)
    (h : makeScalingDecision cfg q cur = some (t, r)) :
    (q > cfg.scaleUpThreshold ∧ cur < cfg.maxReplicas → t ≤ cfg.maxReplicas)
    ∧ (¬(q > cfg.scaleUpThreshold ∧ cur < cfg.maxReplicas) → cfg.minReplicas ≤ t) := by
  unfold makeScalingDecision at h
  by_cases hup : q > cfg.scaleUpThreshold ∧ cur < cfg.maxReplicas
  · rw [if_pos hup] at h
    simp only [Option.some.injEq, Prod.mk.injEq] at h
    refine ⟨fun _ => ?_, fun hn => absurd hup hn⟩
    rw [← h.1]; exact min_le_right _ _
  · rw [if_neg hup] at h
    by_cases hdn : q ≤ cfg.scaleDownThreshold ∧ cur > cfg.minReplicas
    · rw [if_pos hdn] at h
      simp only [Option.some.injEq, Prod.mk.injEq] at h
      refine ⟨fun hu => absurd hu hup, fun _ => ?_⟩
      rw [← h.1]; exact le_max_right _ _
    · rw [if_neg hdn] at h; exact absurd h (by simp)

/-- Witness for C8: the scale-up decision (queue 6, 2 replicas) targets 3,
within the maximum of 5. -/
theorem C8_witness : (3 : Int) ≤ exCfg.maxReplicas :=
  (C8_targets_within_bounds exCfg 6 2 3 (upReason exCfg 6) (by decide)).1 (by decide)

/-- Claim C10 (confirmed): for every negative target, `scale_service`
returns false and the subprocess oracle is never invoked. -/
theorem C10_negative_target_no_subprocess (cfg : DockerConfig) (t : Int)
    (run : List String → RunOutcome) (h : t < 0) :
    scaleService cfg t run = (false, false) := by
  unfold scaleService; rw [if_pos h]

/-- A concrete orchestrator identity for witnesses. -/
def c10Docker : DockerConfig := ⟨"/app/docker-compose.yml", "n8domata", "n8n-worker"⟩

/-- Witness for C10: target −1 is rejected without invoking the
subprocess. -/
theorem C10_witness :
    scaleService c10Docker (-1) (fun _ => RunOutcome.otherError) = (false, false) :=
  C10_negative_target_no_subprocess c10Docker (-1) (fun _ => RunOutcome.otherError) (by decide)

/-- State for the C1 counterexample: running, never scaled, two prior
consecutive errors. -/
def c1State : ScalerState := ⟨true, 0, 2⟩

/-- Input for the C1 counterexample: past cooldown, store connected, queue
50 over threshold 5 with 2 of 5 replicas (so a scale-up decision exists),
and the actuation fails. -/
def c1Input : CycleInput := ⟨200, ConnProbe.ok true, true, 50, 2, false⟩

/-- Claim C1 counterexample: in a cycle where a scaling decision exists and
the actuation fails, `consecutive_errors` is NOT incremented by one — the
cycle body runs to completion and resets the counter to 0 (here: from 2 to
0, not to 3), so actuation failures do not count toward the 5-error
budget. -/
theorem C1_cex :
    makeScalingDecision exCfg c1Input.queueLength c1Input.currentReplicas ≠ none
    ∧ c1Input.scaleSucceeds = false
    ∧ ((scalingCycle exCfg exTiming c1State c1Input).2).scaleCalled = true
    ∧ ((scalingCycle exCfg exTiming c1State c1Input).1).consecutiveErrors
        ≠ c1State.consecutiveErrors + 1 := by decide

/-- Claim C1 (corrected): in every cycle in which the actuator is invoked
and the actuation fails, `consecutive_errors` ends the cycle at 0 — reset
exactly as on success, never incremented. -/
theorem C1_actuation_failure_resets_errors (scfg : ScalingConfig) (tcfg : TimingConfig)
    (s : ScalerState) (i : CycleInput)
    (hcall : ((scalingCycle scfg tcfg s i).2).scaleCalled = true)
    (hfail : i.scaleSucceeds = false) :
    ((scalingCycle scfg tcfg s i).1).consecutiveErrors = 0
    ∧ ((scalingCycle scfg tcfg s i).1).consecutiveErrors ≠ s.consecutiveErrors + 1 := by
  rcases i with ⟨t, cp, rc, q, c, sc⟩
  by_cases hcool : t - s.lastScaleTime < tcfg.cooldownPeriod
  · simp [scalingCycle, hcool] at hcall
  · cases cp with
    | throws => simp [scalingCycle, hcool] at hcall
    | ok conn =>
      by_cases hcf : conn = false ∧ rc = false
      · simp [scalingCycle, hcool, hcf] at hcall
      · cases hd : makeScalingDecision scfg q c with
        | none => simp [scalingCycle, hcool, hcf, hd] at hcall
        | some d =>
          cases sc with
          | true => simp at hfail
          | false =>
            constructor
            · simp [scalingCycle, hcool, hcf, hd]
            · simp [scalingCycle, hcool, hcf, hd]

/-- Witness for C1's corrected statement at the concrete counterexample
cycle. -/
theorem C1_witness :
    ((scalingCycle exCfg exTiming c1State c1Input).1).consecutiveErrors = 0
    ∧ ((scalingCycle exCfg exTiming c1State c1Input).1).consecutiveErrors
        ≠ c1State.consecutiveErrors + 1 :=
  C1_actuation_failure_resets_errors exCfg exTiming c1State c1Input (by decide) (by decide)

/-- State for the C2 counterexample: last actuation at t = 100. -/
def c2State : ScalerState := ⟨true, 100, 0⟩

/-- Input for the C2 counterexample: t = 110, inside the 120s cooldown;
connected, and the queue would trigger a scale-up decision. -/
def c2Input : CycleInput := ⟨110, ConnProbe.ok true, true, 50, 2, true⟩

/-- Claim C2 counterexample: inside the cooldown period no actuation
occurs, but — contrary to the claim — queue-length measurement and replica
counting are also skipped: the iteration `continue`s straight to the next
sleep. -/
theorem C2_cex :
    c2Input.currentTime - c2State.lastScaleTime < exTiming.cooldownPeriod
    ∧ makeScalingDecision exCfg c2Input.queueLength c2Input.currentReplicas ≠ none
    ∧ ((scalingCycle exCfg exTiming c2State c2Input).2).scaleCalled = false
    ∧ ((scalingCycle exCfg exTiming c2State c2Input).2).measured = false := by decide

/-- Claim C2 (corrected): an iteration that starts within `cooldownPeriod`
of the last actuation performs no actuation, performs no measurement
either, and leaves the loop state unchanged. -/
theorem C2_cooldown_suppresses (scfg : ScalingConfig) (tcfg : TimingConfig)
    (s : ScalerState) (i : CycleInput)
    (h : i.currentTime - s.lastScaleTime < tcfg.cooldownPeriod) :
    ((scalingCycle scfg tcfg s i).2).scaleCalled = false
    ∧ ((scalingCycle scfg tcfg s i).2).measured = false
    ∧ (scalingCycle scfg tcfg s i).1 = s := by
  unfold scalingCycle; rw [if_pos h]; exact ⟨rfl, rfl, rfl⟩

/-- Witness for C2's corrected statement at the concrete in-cooldown
cycle. -/
theorem C2_witness :
    ((scalingCycle exCfg exTiming c2State c2Input).2).scaleCalled = false
    ∧ ((scalingCycle exCfg exTiming c2State c2Input).2).measured = false
    ∧ (scalingCycle exCfg exTiming c2State c2Input).1 = c2State :=
  C2_cooldown_suppresses exCfg exTiming c2State c2Input (by decide)

/-- The store of the spec's key-pattern-fallback scenario: only
`myapp:jobs:waiting` exists, holding a 7-element list. -/
def c4Store : Store :=
  [("myapp:jobs:waiting", RVal.list ["j1", "j2", "j3", "j4", "j5", "j6", "j7"])]

/-- The queue identity of that scenario. -/
def c4Queue : QueueConfig := ⟨"myapp", "jobs"⟩

/-- Claim C4 (code_bug): on a store containing only
`myapp:jobs:waiting = 7`, `get_queue_length` returns 0, not 7: the first
candidate `myapp:jobs:wait` is missing, but Redis `LLEN` reports 0 for a
missing key, which passes the `length >= 0` guard and is returned before
the `waiting` candidate — holding 7 — is ever tried.  The fallback only
proceeds past a candidate on a raised error (e.g. WRONGTYPE), never on a
missing key. -/
theorem C4_waiting_only_store_returns_zero :
    getQueueLength (some c4Store) c4Queue = 0
    ∧ storeLookup c4Store (c4Queue.getQueueKey "wait") = none
    ∧ llen c4Store (c4Queue.getQueueKey "wait") = Except.ok 0
    ∧ llen c4Store (c4Queue.getQueueKey "waiting") = Except.ok 7 := by decide

/-- State for the C6 witness: 4 consecutive errors already recorded. -/
def c6State : ScalerState := ⟨true, 0, 4⟩

/-- Input for the C6 witness: past cooldown, liveness probe reports
disconnected and the reconnect fails — the 5th consecutive failure. -/
def c6Input : CycleInput := ⟨200, ConnProbe.ok false, false, 0, 1, false⟩

/-- Claim C6 (confirmed): when a cycle drives `consecutive_errors` to the
budget of 5, it clears `running`, and the loop executes no further cycle
regardless of what inputs follow — fail-stop, not indefinite retry. -/
theorem C6_fail_stop (scfg : ScalingConfig) (tcfg : TimingConfig) (s : ScalerState)
    (i : CycleInput) (inputs : List CycleInput)
    (hlt : s.consecutiveErrors < maxConsecutiveErrors)
    (hge : maxConsecutiveErrors ≤ ((scalingCycle scfg tcfg s i).1).consecutiveErrors) :
    ((scalingCycle scfg tcfg s i).1).running = false
    ∧ (scalingLoop scfg tcfg ((scalingCycle scfg tcfg s i).1) inputs).2 = 0 := by
  have hrun : ((scalingCycle scfg tcfg s i).1).running = false := by
    rcases i with ⟨t, cp, rc, q, c, sc⟩
    by_cases hcool : t - s.lastScaleTime < tcfg.cooldownPeriod
    · exfalso; simp [scalingCycle, hcool] at hge; omega
    · cases cp with
      | throws =>
        have h5 : maxConsecutiveErrors ≤ s.consecutiveErrors + 1 := by
          simpa [scalingCycle, hcool] using hge
        simp [scalingCycle, hcool, handleConsecutiveErrors, h5]
      | ok conn =>
        by_cases hcf : conn = false ∧ rc = false
        · have h5 : maxConsecutiveErrors ≤ s.consecutiveErrors + 1 := by
            simpa [scalingCycle, hcool, hcf] using hge
          simp [scalingCycle, hcool, hcf, handleConsecutiveErrors, h5]
        · exfalso
          cases hd : makeScalingDecision scfg q c with
          | none => simp [scalingCycle, hcool, hcf, hd] at hge; omega
          | some d => simp [scalingCycle, hcool, hcf, hd] at hge; omega
  refine ⟨hrun, ?_⟩
  cases inputs with
  | nil => rfl
  | cons a rest => simp [scalingLoop, hrun]

/-- Witness for C6: the 5th consecutive failure (failed reconnect) stops
the loop; with one further input pending, zero further cycles execute. -/
theorem C6_witness :
    ((scalingCycle exCfg exTiming c6State c6Input).1).running = false
    ∧ (scalingLoop exCfg exTiming
        ((scalingCycle exCfg exTiming c6State c6Input).1) [c6Input]).2 = 0 :=
  C6_fail_stop exCfg exTiming c6State c6Input [c6Input] (by decide) (by decide)

/-- Claim C7 (confirmed): `last_scale_time` changes only on actuation
success — set to the cycle's sampled time when the actuator is invoked and
succeeds, and left untouched when the actuation fails or the actuator is
not invoked at all. -/
theorem C7_lastScaleTime_frame (scfg : ScalingConfig) (tcfg : TimingConfig)
    (s : ScalerState) (i : CycleInput) :
    (((scalingCycle scfg tcfg s i).2).scaleCalled = true → i.scaleSucceeds = true →
      ((scalingCycle scfg tcfg s i).1).lastScaleTime = i.currentTime)
    ∧ (((scalingCycle scfg tcfg s i).2).scaleCalled = true → i.scaleSucceeds = false →
      ((scalingCycle scfg tcfg s i).1).lastScaleTime = s.lastScaleTime)
    ∧ (((scalingCycle scfg tcfg s i).2).scaleCalled = false →
      ((scalingCycle scfg tcfg s i).1).lastScaleTime = s.lastScaleTime) := by
  rcases i with ⟨t, cp, rc, q, c, sc⟩
  by_cases hcool : t - s.lastScaleTime < tcfg.cooldownPeriod
  · simp [scalingCycle, hcool]
  · cases cp with
    | throws => simp [scalingCycle, hcool]
    | ok conn =>
      by_cases hcf : conn = false ∧ rc = false
      · simp [scalingCycle, hcool, hcf]
      · cases hd : makeScalingDecision scfg q c with
        | none => simp [scalingCycle, hcool, hcf, hd]
        | some d => cases sc <;> simp [scalingCycle, hcool, hcf, hd]

/-- State and input for the C7 witness: a successful scale-up cycle. -/
def c7State : ScalerState := ⟨true, 0, 0⟩

/-- Input for the C7 witness: past cooldown, connected, decision fires,
actuation succeeds. -/
def c7Input : CycleInput := ⟨500, ConnProbe.ok true, true, 50, 2, true⟩

/-- Witness for C7: after a successful actuation at t = 500,
`last_scale_time` is 500. -/
theorem C7_witness :
    ((scalingCycle exCfg exTiming c7State c7Input).1).lastScaleTime = c7Input.currentTime :=
  (C7_lastScaleTime_frame exCfg exTiming c7State c7Input).1 (by decide) (by decide)

/-- Claim C9 counterexample: a ping failure whose exception class is not
`ConnectionError` (here a timeout) is not caught — `is_connected`
propagates the exception instead of returning a boolean. -/
theorem C9_cex :
    isConnected (some (Except.error ExcKind.timeoutError))
        = Except.error ExcKind.timeoutError
    ∧ isConnected (some (Except.error ExcKind.timeoutError)) ≠ Except.ok false
    ∧ isConnected (some (Except.error ExcKind.timeoutError)) ≠ Except.ok true := by decide

/-- Claim C9 (corrected): `is_connected` returns false exactly when no
client is held or the ping raises a connection error, returns true exactly
when the ping succeeds, and propagates every ping exception of any other
class. -/
theorem C9_isConnected_characterization (st : PingState) :
    (isConnected st = Except.ok false ↔
      (st = none ∨ st = some (Except.error ExcKind.connectionError)))
    ∧ (isConnected st = Except.ok true ↔ st = some (Except.ok ()))
    ∧ (∀ e : ExcKind, e ≠ ExcKind.connectionError →
      isConnected (some (Except.error e)) = Except.error e) := by
  have hthird : ∀ e : ExcKind, e ≠ ExcKind.connectionError →
      isConnected (some (Except.error e)) = Except.error e := by
    intro e he
    cases e with
    | connectionError => exact absurd rfl he
    | timeoutError => rfl
    | otherError => rfl
  refine ⟨?_, ?_, hthird⟩
  · cases st with
    | none => simp [isConnected]
    | some r =>
      cases r with
      | ok u => simp [isConnected]
      | error e => cases e <;> simp [isConnected]
  · cases st with
    | none => simp [isConnected]
    | some r =>
      cases r with
      | ok u => simp [isConnected]
      | error e => cases e <;> simp [isConnected]

/-- Witness for C9's corrected statement: a non-connection exception
(otherError) propagates out of `is_connected`. -/
theorem C9_witness :
    isConnected (some (Except.error ExcKind.otherError)) = Except.error ExcKind.otherError :=
  (C9_isConnected_characterization (some (Except.error ExcKind.otherError))).2.2
    ExcKind.otherError (by decide)

end DynScaler
